import Mathlib

/-!
Shallow embedding of the mnemos browser-extension popup search client
(popup script: `checkServiceStatus`, `searchMemories`, `displayMemories`,
`setLoading`, `showError`, `showEmptyState`, `escapeHtml`, and the
click / keypress event listeners).

The external memory service is modelled as an oracle `Server` mapping a
request (endpoint plus the percent-encoded `text_query` value) to a fetch
outcome: a network error, or an HTTP response with a status code and a
JSON-parse outcome for its body.  The popup's DOM surface is modelled by
`PopupState`: the `isSearching` flag, the search button's disabled flag and
label, and the memories container's content.
-/

/-- The three service endpoints the popup script contacts. -/
inductive Endpoint where
  | test
  | cascadingRetrieval
  | semanticSearch
deriving DecidableEq, Repr

/-- A GET request issued by the popup: the endpoint and the value of the
`text_query` query parameter as sent on the wire (already percent-encoded);
the health-check request carries no query, modelled as `""`. -/
structure Request where
  endpoint : Endpoint
  textQuery : String
deriving DecidableEq, Repr

/-- A memory record as consumed by the client: optional `chunk_text` and
`text` fields (`none` models an absent field; `some ""` a present but empty
string, which is falsy in the source's `||` chains) and a numeric `score`. -/
structure Memory where
  chunk_text : Option String
  text : Option String
  score : ℚ
deriving DecidableEq, Repr

/-- The parsed JSON body of a retrieval response: the `results` field is
either absent (`none`) or an array of memory records. -/
structure ParsedBody where
  results : Option (List Memory)
deriving DecidableEq, Repr

/-- Outcome of one `fetch`: a rejected promise (network error carrying the
error message), or an HTTP response with its status code and the outcome of
`response.json()` (`Except.error` models a body that fails to parse, with
the parse error's message). -/
inductive FetchResult where
  | netErr (msg : String)
  | http (status : Nat) (body : Except String ParsedBody)
deriving Repr

/-- The external service: an oracle from requests to fetch outcomes. -/
def Server : Type := Request → FetchResult

/-- One rendered memory card: the escaped text HTML, the formatted score
string (with the `%` suffix), the 1-based ordinal shown as `Memory #n`, and
the raw text the card's click handler writes to the clipboard. -/
structure RenderedCard where
  textHTML : String
  scoreDisplay : String
  ordinal : Nat
  copyText : String
deriving DecidableEq, Repr

/-- Content of the memories container. `loading` is the placeholder written
by `setLoading true`; `errorMsg` / `emptyState` hold the (already escaped)
message HTML of `showError` / `showEmptyState`; `memories` holds the
rendered result cards; `initial` is the container as the popup opens. -/
inductive Container where
  | initial
  | loading
  | errorMsg (html : String)
  | emptyState (html : String)
  | memories (cards : List RenderedCard)
deriving DecidableEq, Repr

/-- The popup's mutable UI surface: the `isSearching` flag, the search
button's `disabled` flag and `textContent`, and the memories container. -/
structure PopupState where
  isSearching : Bool
  buttonDisabled : Bool
  buttonText : String
  container : Container
deriving DecidableEq, Repr

/-- The popup's state when it opens: not searching, button enabled with its
default label, container as in the markup. -/
def initialPopupState : PopupState :=
  { isSearching := false
    buttonDisabled := false
    buttonText := "Search Memories"
    container := .initial }

/-- Uppercase hexadecimal digit for a value below 16, as produced by
percent-encoding. -/
def hexDigitChar (n : Nat) : Char :=
  if n < 10 then Char.ofNat (48 + n) else Char.ofNat (55 + n)

/-- UTF-8 encoding of a Unicode code point, as the byte values
percent-encoding works over. -/
def utf8Bytes (n : Nat) : List Nat :=
  if n < 128 then [n]
  else if n < 2048 then [192 + n / 64, 128 + n % 64]
  else if n < 65536 then [224 + n / 4096, 128 + (n / 64) % 64, 128 + n % 64]
  else [240 + n / 262144, 128 + (n / 4096) % 64, 128 + (n / 64) % 64, 128 + n % 64]

/-- `%XY` escape for one byte, uppercase hex. -/
def percentEncodeByte (b : Nat) : String :=
  "%" ++ String.singleton (hexDigitChar (b / 16)) ++ String.singleton (hexDigitChar (b % 16))

/-- Characters `encodeURIComponent` leaves unescaped: ASCII letters, digits,
and `- _ . ! ~ * ' ( )`. -/
def uriUnreserved (c : Char) : Bool :=
  c.isAlpha || c.isDigit || c = '-' || c = '_' || c = '.' || c = '!' ||
    c = '~' || c = '*' || c = '\x27' || c = '(' || c = ')'

/-- Encoding of one character under `encodeURIComponent`: unreserved
characters pass through, every other character becomes the percent-encoded
bytes of its UTF-8 encoding. -/
def encodeURIComponentChar (c : Char) : String :=
  if uriUnreserved c then String.singleton c
  else String.join ((utf8Bytes c.toNat).map percentEncodeByte)

/-- The `encodeURIComponent` applied to the query before it is placed in the
`text_query` parameter of both retrieval URLs. -/
def encodeURIComponent (s : String) : String :=
  String.join (s.data.map encodeURIComponentChar)

/-- Escaping of one character when a text node is serialized back out of
`innerHTML`, per the HTML fragment serialization algorithm: `&`, U+00A0
NO-BREAK SPACE, `<` and `>` become character entities, everything else is
unchanged. -/
def escapeHtmlChar (c : Char) : String :=
  if c = '&' then "&amp;"
  else if c = '\u00A0' then "&nbsp;"
  else if c = '<' then "&lt;"
  else if c = '>' then "&gt;"
  else String.singleton c

/-- The source's `escapeHtml`: assign the string to a detached div's
`textContent` and read back `innerHTML`, which serializes the text node with
`&`, U+00A0, `<` and `>` replaced by entities. -/
def escapeHtml (s : String) : String :=
  String.join (s.data.map escapeHtmlChar)

/-- JavaScript `a || b` on an optional string field: an absent field and the
empty string are falsy, any other string is the result. -/
def jsOr (a : Option String) (b : String) : String :=
  match a with
  | none => b
  | some s => if s = "" then b else s

/-- The text a card displays: `memory.chunk_text || memory.text ||
'No text available'`. -/
def displayText (m : Memory) : String :=
  jsOr m.chunk_text (jsOr m.text "No text available")

/-- The text the card's click handler copies: `memory.chunk_text ||
memory.text || ''`. -/
def clipboardText (m : Memory) : String :=
  jsOr m.chunk_text (jsOr m.text "")

/-- Digit-dot-digit rendering of a scaled integer `n` (tenths):
`953 ↦ "95.3"`. -/
def natFixed1 (n : Nat) : String :=
  toString (n / 10) ++ "." ++ toString (n % 10)

/-- JavaScript `x.toFixed(1)` on an exact numeric value: round to the
nearest tenth, ties toward positive infinity, then print with one digit
after the decimal point. -/
def jsToFixed1 (q : ℚ) : String :=
  let n : ℤ := ⌊q * 10 + 1 / 2⌋
  if n < 0 then "-" ++ natFixed1 (Int.toNat (-n)) else natFixed1 (Int.toNat n)

/-- One card of `displayMemories`: escaped display text, the score shown as
`(memory.score * 100).toFixed(1)` with a `%` suffix, the 1-based ordinal of
the `Memory #` label, and the raw text captured by the click handler. -/
def renderCard (index : Nat) (m : Memory) : RenderedCard :=
  { textHTML := escapeHtml (displayText m)
    scoreDisplay := jsToFixed1 (m.score * 100) ++ "%"
    ordinal := index + 1
    copyText := clipboardText m }

/-- The `memories.forEach((memory, index) => ...)` loop: render one card per
record, indices counting up from `i`. -/
def renderCards (i : Nat) : List Memory → List RenderedCard
  | [] => []
  | m :: ms => renderCard i m :: renderCards (i + 1) ms

/-- The source's `displayMemories`: clear the container and append one card
per record, indices from 0. -/
def displayMemories (ms : List Memory) : Container :=
  .memories (renderCards 0 ms)

/-- Outcome of one card click, given whether the clipboard write resolves:
the string written to the clipboard, and whether the 500ms background flash
happens (it does only on success; a rejected write is logged and changes no
UI state). -/
def cardClick (m : Memory) (clipboardOk : Bool) : String × Bool :=
  (clipboardText m, clipboardOk)

/-- The source's `setLoading`: set `isSearching`, the button's disabled
flag and label; when turning loading on, overwrite the container with the
loading placeholder (turning it off leaves the container alone). -/
def setLoading (loading : Bool) (st : PopupState) : PopupState :=
  { isSearching := loading
    buttonDisabled := loading
    buttonText := if loading then "Searching..." else "Search Memories"
    container := if loading then .loading else st.container }

/-- The source's `showError`: write the escaped message into the container
as the error state. -/
def showError (message : String) (st : PopupState) : PopupState :=
  { st with container := .errorMsg (escapeHtml message) }

/-- The source's `showEmptyState`: write the escaped message into the
container as the empty state. -/
def showEmptyState (message : String) (st : PopupState) : PopupState :=
  { st with container := .emptyState (escapeHtml message) }

/-- `response.ok`: status in the inclusive range 200-299. -/
def responseOk (status : Nat) : Bool :=
  decide (200 ≤ status) && decide (status ≤ 299)

/-- The characters JavaScript `String.prototype.trim` removes: WhiteSpace
(tab, VT, FF, space, NBSP, BOM and the Unicode space separators) and
LineTerminator (LF, CR, LS, PS). -/
def isJsWhitespace (c : Char) : Bool :=
  let n := c.toNat
  n = 9 || n = 10 || n = 11 || n = 12 || n = 13 || n = 32 || n = 160 ||
    n = 0x1680 || (0x2000 ≤ n && n ≤ 0x200A) || n = 0x2028 || n = 0x2029 ||
    n = 0x202F || n = 0x205F || n = 0x3000 || n = 0xFEFF

/-- JavaScript `query.trim()`: strip leading and trailing whitespace. -/
def jsTrim (s : String) : String :=
  String.mk (((s.data.dropWhile isJsWhitespace).reverse.dropWhile isJsWhitespace).reverse)

/-- The health-check request issued on popup open (`GET /api/test`, no
query). -/
def testRequest : Request := ⟨.test, ""⟩

/-- The primary retrieval request
(`GET /api/cascading-retrieval?text_query={encoded}`). -/
def primaryRequest (query : String) : Request :=
  ⟨.cascadingRetrieval, encodeURIComponent query⟩

/-- The fallback retrieval request
(`GET /api/semantic-search?text_query={encoded}`). -/
def fallbackRequest (query : String) : Request :=
  ⟨.semanticSearch, encodeURIComponent query⟩

/-- One `await fetch(...)` / `response.ok` check / `await response.json()`
sequence as it appears (twice) in `searchMemories`: a network error rejects
with its message, a non-2xx status throws
`HTTP error! status: {response.status}`, otherwise the body's parse outcome
is returned. -/
def fetchJson (server : Server) (r : Request) : Except String ParsedBody :=
  match server r with
  | .netErr msg => .error msg
  | .http status body =>
      if responseOk status then body
      else .error ("HTTP error! status: " ++ toString status)

/-- The guard `!data.results || data.results.length === 0` deciding whether
to fall back to semantic search. -/
def resultsEmpty (b : ParsedBody) : Bool :=
  match b.results with
  | none => true
  | some l => l.isEmpty

/-- The guard `data.results && data.results.length > 0` deciding whether to
render. -/
def hasResults (b : ParsedBody) : Bool :=
  match b.results with
  | some (_ :: _) => true
  | _ => false

/-- The try-block of `searchMemories` up to the render decision: query the
primary endpoint; on a parsed response with absent or empty `results`, query
the fallback endpoint and use its body instead.  Returns the body the render
step sees (or the thrown error's message) together with the list of requests
issued, in order. -/
def searchCore (server : Server) (query : String) :
    Except String ParsedBody × List Request :=
  match fetchJson server (primaryRequest query) with
  | .error msg => (.error msg, [primaryRequest query])
  | .ok data =>
      if resultsEmpty data then
        match fetchJson server (fallbackRequest query) with
        | .error msg => (.error msg, [primaryRequest query, fallbackRequest query])
        | .ok data2 => (.ok data2, [primaryRequest query, fallbackRequest query])
      else (.ok data, [primaryRequest query])

/-- The source's `searchMemories`: reject a blank query with the empty
state before any request; otherwise enter the loading state, run the
primary/fallback retrieval, then render results, show the empty state, or
show the caught error as `Failed to search memories: {error.message}`; the
finally-clause `setLoading false` always runs last.  Returns the final UI
state and the requests issued. -/
def searchMemories (server : Server) (query : String) (st : PopupState) :
    PopupState × List Request :=
  if jsTrim query = "" then
    (showEmptyState "Please enter a search query" st, [])
  else
    let loadingSt := setLoading true st
    let afterTry :=
      match searchCore server query with
      | (.ok data, reqs) =>
          if hasResults data then
            ({ loadingSt with container := displayMemories (data.results.getD []) }, reqs)
          else
            (showEmptyState "No memories found for your search" loadingSt, reqs)
      | (.error msg, reqs) =>
          (showError ("Failed to search memories: " ++ msg) loadingSt, reqs)
    (setLoading false afterTry.1, afterTry.2)

/-- The source's `checkServiceStatus`: `GET /api/test`; a 2xx response logs
and returns true, a non-2xx response logs and returns false (no UI change),
a network error shows the fixed service-unavailable message and returns
false. -/
def checkServiceStatus (server : Server) (st : PopupState) : Bool × PopupState :=
  match server testRequest with
  | .netErr _ =>
      (false,
        showError
          "Memory service is not available. Please make sure it\x27s running on localhost:8000"
          st)
  | .http status _ => (responseOk status, st)

/-- The search button's click listener: guarded by `!isSearching`, then
`searchMemories(searchInput.value)`. -/
def handleClick (server : Server) (inputValue : String) (st : PopupState) :
    PopupState × List Request :=
  if st.isSearching then (st, []) else searchMemories server inputValue st

/-- The search input's keypress listener: guarded by
`e.key === 'Enter' && !isSearching`. -/
def handleKeypress (server : Server) (key : String) (inputValue : String)
    (st : PopupState) : PopupState × List Request :=
  if key = "Enter" && !st.isSearching then searchMemories server inputValue st
  else (st, [])

/-- The DOMContentLoaded handler's last step: run `checkServiceStatus()` and
discard its boolean result. -/
def onPopupOpen (server : Server) (st : PopupState) : PopupState :=
  (checkServiceStatus server st).2

/-! Helper lemmas. -/

theorem data_foldl_append (l : List String) (acc : String) :
    (l.foldl (· ++ ·) acc).data = acc.data ++ (l.map String.data).flatten := by
  induction l generalizing acc with
  | nil => simp
  | cons s t ih => simp [List.foldl, ih, String.data_append]

theorem data_join (l : List String) :
    (String.join l).data = (l.map String.data).flatten := by
  simpa [String.join] using data_foldl_append l ""

theorem string_eq_of_data {a b : String} (h : a.data = b.data) : a = b := by
  cases a
  cases b
  simp_all

theorem data_escapeHtml (s : String) :
    (escapeHtml s).data = (s.data.map (fun c => (escapeHtmlChar c).data)).flatten := by
  simp [escapeHtml, data_join, List.map_map, Function.comp_def]

theorem escapeHtml_append (a b : String) :
    escapeHtml (a ++ b) = escapeHtml a ++ escapeHtml b := by
  refine string_eq_of_data ?_
  simp [data_escapeHtml, String.data_append]

theorem escapeHtmlChar_mem_ne (a c : Char) (hc : c ∈ (escapeHtmlChar a).data) :
    c ≠ '<' ∧ c ≠ '>' := by
  unfold escapeHtmlChar at hc
  split at hc
  · have h5 : c = '&' ∨ c = 'a' ∨ c = 'm' ∨ c = 'p' ∨ c = ';' := by simpa using hc
    rcases h5 with rfl | rfl | rfl | rfl | rfl <;> decide
  · split at hc
    · have h6 : c = '&' ∨ c = 'n' ∨ c = 'b' ∨ c = 's' ∨ c = 'p' ∨ c = ';' := by
        simpa using hc
      rcases h6 with rfl | rfl | rfl | rfl | rfl | rfl <;> decide
    · split at hc
      · have h4 : c = '&' ∨ c = 'l' ∨ c = 't' ∨ c = ';' := by simpa using hc
        rcases h4 with rfl | rfl | rfl | rfl <;> decide
      · split at hc
        · have h4 : c = '&' ∨ c = 'g' ∨ c = 't' ∨ c = ';' := by simpa using hc
          rcases h4 with rfl | rfl | rfl | rfl <;> decide
        · rename_i h1 h2 h3 h4
          have hca : c = a := by simpa [String.singleton] using hc
          subst hca
          exact ⟨h3, h4⟩

theorem escapeHtml_no_markup (s : String) (c : Char)
    (hc : c ∈ (escapeHtml s).data) : c ≠ '<' ∧ c ≠ '>' := by
  rw [data_escapeHtml] at hc
  rcases List.mem_flatten.mp hc with ⟨l, hl, hcl⟩
  rcases List.mem_map.mp hl with ⟨a, _, rfl⟩
  exact escapeHtmlChar_mem_ne a c hcl

theorem flatten_escapeHtmlChar_of_safe (l : List Char)
    (hsafe : ∀ c ∈ l, c ≠ '&' ∧ c ≠ '\u00A0' ∧ c ≠ '<' ∧ c ≠ '>') :
    (l.map (fun c => (escapeHtmlChar c).data)).flatten = l := by
  induction l with
  | nil => simp
  | cons a t ih =>
      have ha := hsafe a (by simp)
      have ht : ∀ c ∈ t, c ≠ '&' ∧ c ≠ '\u00A0' ∧ c ≠ '<' ∧ c ≠ '>' :=
        fun c hc => hsafe c (by simp [hc])
      have hone : (escapeHtmlChar a).data = [a] := by
        simp [escapeHtmlChar, ha.1, ha.2.1, ha.2.2.1, ha.2.2.2, String.singleton]
      simp [hone, ih ht]

theorem escapeHtml_of_safe (s : String)
    (hsafe : ∀ c ∈ s.data, c ≠ '&' ∧ c ≠ '\u00A0' ∧ c ≠ '<' ∧ c ≠ '>') :
    escapeHtml s = s := by
  refine string_eq_of_data ?_
  rw [data_escapeHtml]
  exact flatten_escapeHtmlChar_of_safe s.data hsafe

theorem getElem?_renderCards (ms : List Memory) (i k : Nat) :
    (renderCards i ms)[k]? = ms[k]?.map (fun m => renderCard (i + k) m) := by
  induction ms generalizing i k with
  | nil => simp [renderCards]
  | cons m t ih =>
      cases k with
      | zero => simp [renderCards]
      | succ k =>
          simp [renderCards, ih (i + 1) k, Nat.add_assoc, Nat.add_comm 1 k]

theorem fetchJson_ok (server : Server) (r : Request) (status : Nat)
    (body : ParsedBody) (hs : server r = .http status (.ok body))
    (hok : responseOk status = true) :
    fetchJson server r = .ok body := by
  unfold fetchJson
  rw [hs]
  simp [hok]

theorem searchCore_requests_of_primary_empty
    (server : Server) (q : String) (status : Nat) (body : ParsedBody)
    (hs : server (primaryRequest q) = .http status (.ok body))
    (hok : responseOk status = true)
    (hempty : body.results = none ∨ body.results = some []) :
    (searchCore server q).2 = [primaryRequest q, fallbackRequest q] := by
  have hre : resultsEmpty body = true := by
    rcases hempty with h | h <;> simp [resultsEmpty, h]
  unfold searchCore
  rw [fetchJson_ok server _ status body hs hok]
  simp only [hre, if_true]
  rcases h2 : fetchJson server (fallbackRequest q) with m | d2 <;> simp [h2]

theorem searchCore_of_primary_hit
    (server : Server) (q : String) (status : Nat) (body : ParsedBody)
    (r : Memory) (rs : List Memory)
    (hs : server (primaryRequest q) = .http status (.ok body))
    (hok : responseOk status = true)
    (hres : body.results = some (r :: rs)) :
    searchCore server q = (.ok body, [primaryRequest q]) := by
  have hre : resultsEmpty body = false := by simp [resultsEmpty, hres]
  unfold searchCore
  rw [fetchJson_ok server _ status body hs hok]
  simp [hre]

theorem searchMemories_requests_eq (server : Server) (q : String)
    (st : PopupState) (hq : jsTrim q ≠ "") :
    (searchMemories server q st).2 = (searchCore server q).2 := by
  unfold searchMemories
  rw [if_neg hq]
  rcases h : searchCore server q with ⟨msg | data, reqs⟩
  · simp [h]
  · simp [h, apply_ite Prod.snd]

theorem searchMemories_resets (server : Server) (q : String)
    (st : PopupState) (hq : jsTrim q ≠ "") :
    (searchMemories server q st).1.isSearching = false ∧
      (searchMemories server q st).1.buttonDisabled = false ∧
      (searchMemories server q st).1.buttonText = "Search Memories" := by
  unfold searchMemories
  rw [if_neg hq]
  exact ⟨rfl, rfl, rfl⟩

theorem escapeHtml_failedHead :
    escapeHtml "Failed to search memories: " = "Failed to search memories: " := by
  decide

theorem searchMemories_error_container (server : Server) (q : String)
    (st : PopupState) (hq : jsTrim q ≠ "") (msg : String)
    (hmsg : (searchCore server q).1 = .error msg) :
    (searchMemories server q st).1.container =
      Container.errorMsg ("Failed to search memories: " ++ escapeHtml msg) := by
  unfold searchMemories
  rw [if_neg hq]
  rcases h : searchCore server q with ⟨res, reqs⟩
  rw [h] at hmsg
  simp only at hmsg
  rcases res with m | data
  · simp only [Except.error.injEq] at hmsg
    subst hmsg
    simp [h, showError, setLoading, escapeHtml_append, escapeHtml_failedHead]
  · exact absurd hmsg (by simp)

theorem searchMemories_not_loading (server : Server) (q : String)
    (st : PopupState) (hq : jsTrim q ≠ "") :
    (searchMemories server q st).1.container ≠ Container.loading := by
  unfold searchMemories
  rw [if_neg hq]
  rcases h : searchCore server q with ⟨msg | data, reqs⟩
  · simp [h, showError, setLoading]
  · rcases hr : hasResults data with hfalse | htrue
    · simp [h, hr, showEmptyState, setLoading]
    · simp [h, hr, setLoading, displayMemories]

/-- C1: when the primary cascading-retrieval response succeeds but its
parsed body has an absent or empty `results` field, exactly one fallback
request to the semantic-search endpoint is issued, carrying the same
percent-encoded query, and no request follows it. -/
theorem fallback_called_once_on_empty_primary
    (server : Server) (q : String) (st : PopupState) (status : Nat)
    (body : ParsedBody) (hq : jsTrim q ≠ "")
    (hs : server (primaryRequest q) = .http status (.ok body))
    (hok : responseOk status = true)
    (hempty : body.results = none ∨ body.results = some []) :
    (searchMemories server q st).2 = [primaryRequest q, fallbackRequest q] ∧
      (fallbackRequest q).endpoint = Endpoint.semanticSearch ∧
      (fallbackRequest q).textQuery = encodeURIComponent q ∧
      (primaryRequest q).textQuery = encodeURIComponent q := by
  refine ⟨?_, rfl, rfl, rfl⟩
  rw [searchMemories_requests_eq server q st hq]
  exact searchCore_requests_of_primary_empty server q status body hs hok hempty

/-- C2: when the primary cascading-retrieval response has at least one
result, the semantic-search fallback is never called and the primary
response's results are rendered directly. -/
theorem no_fallback_on_primary_hit
    (server : Server) (q : String) (st : PopupState) (status : Nat)
    (body : ParsedBody) (r : Memory) (rs : List Memory)
    (hq : jsTrim q ≠ "")
    (hs : server (primaryRequest q) = .http status (.ok body))
    (hok : responseOk status = true)
    (hres : body.results = some (r :: rs)) :
    (searchMemories server q st).2 = [primaryRequest q] ∧
      (∀ req ∈ (searchMemories server q st).2,
        req.endpoint ≠ Endpoint.semanticSearch) ∧
      (searchMemories server q st).1.container = displayMemories (r :: rs) := by
  have hcore := searchCore_of_primary_hit server q status body r rs hs hok hres
  have hreqs : (searchMemories server q st).2 = [primaryRequest q] := by
    rw [searchMemories_requests_eq server q st hq, hcore]
  refine ⟨hreqs, ?_, ?_⟩
  · intro req hreq
    rw [hreqs] at hreq
    simp only [List.mem_singleton] at hreq
    subst hreq
    simp [primaryRequest]
  · unfold searchMemories
    rw [if_neg hq, hcore]
    have hhas : hasResults body = true := by simp [hasResults, hres]
    simp [hhas, hres, setLoading]

/-- C4: while a search is in flight (`isSearching = true`), a further
button click or Enter keypress issues no request and leaves the UI state
unchanged. -/
theorem inflight_submission_ignored
    (server : Server) (key inputValue : String) (st : PopupState)
    (h : st.isSearching = true) :
    handleClick server inputValue st = (st, []) ∧
      handleKeypress server key inputValue st = (st, []) := by
  constructor
  · simp [handleClick, h]
  · simp [handleKeypress, h]

/-- C5: every dispatched search (non-blank trimmed query) ends with the
finally clause: `isSearching` is false again, the button re-enabled with
its label restored, the loading placeholder is gone, and a thrown error is
shown as an escaped error message embedding the error's text. -/
theorem search_always_returns_to_idle
    (server : Server) (q : String) (st : PopupState) (hq : jsTrim q ≠ "") :
    (searchMemories server q st).1.isSearching = false ∧
      (searchMemories server q st).1.buttonDisabled = false ∧
      (searchMemories server q st).1.buttonText = "Search Memories" ∧
      (searchMemories server q st).1.container ≠ Container.loading ∧
      (∀ msg, (searchCore server q).1 = .error msg →
        (searchMemories server q st).1.container =
          Container.errorMsg ("Failed to search memories: " ++ escapeHtml msg)) := by
  obtain ⟨h1, h2, h3⟩ := searchMemories_resets server q st hq
  exact ⟨h1, h2, h3, searchMemories_not_loading server q st hq,
    fun msg hmsg => searchMemories_error_container server q st hq msg hmsg⟩

/-- C7: a blank (empty or whitespace-only) query never dispatches a
request: the handlers produce no request, the container shows the
empty-state prompt, and the popup stays idle with the button enabled. -/
theorem blank_query_never_dispatches
    (server : Server) (inputValue : String) (st : PopupState)
    (hblank : jsTrim inputValue = "") (hidle : st.isSearching = false) :
    handleClick server inputValue st =
        ({ st with container := Container.emptyState "Please enter a search query" }, []) ∧
      handleKeypress server "Enter" inputValue st =
        ({ st with container := Container.emptyState "Please enter a search query" }, []) ∧
      (handleClick server inputValue st).1.isSearching = false ∧
      (handleClick server inputValue st).1.buttonDisabled = st.buttonDisabled := by
  have hesc : escapeHtml "Please enter a search query" = "Please enter a search query" := by
    decide
  have hmain : searchMemories server inputValue st =
      ({ st with container := Container.emptyState "Please enter a search query" }, []) := by
    unfold searchMemories
    rw [if_pos hblank]
    simp [showEmptyState, hesc]
  have hclick : handleClick server inputValue st =
      ({ st with container := Container.emptyState "Please enter a search query" }, []) := by
    simp [handleClick, hidle, hmain]
  refine ⟨hclick, ?_, ?_, ?_⟩
  · simp [handleKeypress, hidle, hmain]
  · rw [hclick]
    exact hidle
  · rw [hclick]

theorem jsToFixed1_of_floor (q : ℚ) (n : ℤ) (hn : 0 ≤ n)
    (h : ⌊q * 10 + 1 / 2⌋ = n) :
    jsToFixed1 q = natFixed1 (Int.toNat n) := by
  unfold jsToFixed1
  rw [h]
  rw [if_neg (by omega)]

theorem jsToFixed1_0953 : jsToFixed1 ((953 / 1000 : ℚ) * 100) = "95.3" := by
  have h : ⌊(953 / 1000 : ℚ) * 100 * 10 + 1 / 2⌋ = 953 := by
    norm_num [Int.floor_eq_iff]
  rw [jsToFixed1_of_floor _ 953 (by omega) h]
  rfl

/-- C3: every rendered card's text is the HTML-escaped form of the record's
text, chosen as `chunk_text`, else `text`, else the literal placeholder;
the escaped text contains no raw `<` or `>`, and `<script>` in particular
renders as literal entity text. -/
theorem rendered_text_is_escaped
    (ms : List Memory) (k : Nat) (m : Memory) (h : ms[k]? = some m) :
    (renderCards 0 ms)[k]? = some (renderCard k m) ∧
      (renderCard k m).textHTML = escapeHtml (displayText m) ∧
      (∀ c ∈ (renderCard k m).textHTML.data, c ≠ '<' ∧ c ≠ '>') ∧
      escapeHtml "<script>" = "&lt;script&gt;" ∧
      displayMemories ms = Container.memories (renderCards 0 ms) ∧
      displayText ⟨some "A", some "B", 0⟩ = "A" ∧
      displayText ⟨none, some "B", 0⟩ = "B" ∧
      displayText ⟨none, none, 0⟩ = "No text available" := by
  refine ⟨?_, rfl, ?_, by decide, rfl, by decide, by decide, by decide⟩
  · rw [getElem?_renderCards, h]
    simp
  · intro c hc
    exact escapeHtml_no_markup (displayText m) c hc

/-- C8: every rendered card displays its score as `score * 100` rounded to
one decimal place with a `%` suffix and carries the 1-based ordinal; a
score of 0.953 displays as `95.3%`. -/
theorem score_display_format
    (ms : List Memory) (k : Nat) (m : Memory) (h : ms[k]? = some m) :
    (renderCards 0 ms)[k]? = some (renderCard k m) ∧
      (renderCard k m).scoreDisplay = jsToFixed1 (m.score * 100) ++ "%" ∧
      (renderCard k m).ordinal = k + 1 ∧
      jsToFixed1 ((953 / 1000 : ℚ) * 100) ++ "%" = "95.3%" := by
  refine ⟨?_, rfl, rfl, ?_⟩
  · rw [getElem?_renderCards, h]
    simp
  · rw [jsToFixed1_0953]
    decide

/-- C10: a card whose record has neither a truthy `chunk_text` nor a truthy
`text` field displays the placeholder yet copies the empty string to the
clipboard on click; a failed clipboard write produces no flash (it is only
logged), while a successful one does. -/
theorem card_without_text_copies_empty_string (sc : ℚ) (k : Nat) (b : Bool) :
    (renderCard k ⟨none, none, sc⟩).textHTML = "No text available" ∧
      (renderCard k ⟨none, none, sc⟩).copyText = "" ∧
      cardClick ⟨none, none, sc⟩ b = ("", b) ∧
      cardClick ⟨none, none, sc⟩ false = ("", false) := by
  exact ⟨rfl, rfl, rfl, rfl⟩

/-- C9 counterexample: `escapeHtml` does not leave every character other
than `&`, `<`, `>` unchanged — serializing a text node out of `innerHTML`
also rewrites U+00A0 NO-BREAK SPACE to `&nbsp;`, so on the one-character
string U+00A0 the program returns `&nbsp;`, not the input. -/
theorem escapeHtml_nbsp_counterexample :
    escapeHtml "\u00A0" = "&nbsp;" ∧ escapeHtml "\u00A0" ≠ "\u00A0" := by
  exact ⟨by decide, by decide⟩

/-- C9 amended: `escapeHtml` rewrites exactly the characters `&`, U+00A0,
`<`, `>` to their character entities and leaves every other character
(quotes included) unchanged, and the same escaping is applied to the
error-state and empty-state messages before they are written into the
container. -/
theorem escapeHtml_exactly_four_entities
    (s message : String) (st : PopupState)
    (hsafe : ∀ c ∈ s.data, c ≠ '&' ∧ c ≠ '\u00A0' ∧ c ≠ '<' ∧ c ≠ '>') :
    escapeHtml s = s ∧
      escapeHtml "&" = "&amp;" ∧
      escapeHtml "\u00A0" = "&nbsp;" ∧
      escapeHtml "<" = "&lt;" ∧
      escapeHtml ">" = "&gt;" ∧
      escapeHtml "\x22\x27" = "\x22\x27" ∧
      (showError message st).container = Container.errorMsg (escapeHtml message) ∧
      (showEmptyState message st).container = Container.emptyState (escapeHtml message) := by
  exact ⟨escapeHtml_of_safe s hsafe, by decide, by decide, by decide, by decide,
    by decide, rfl, rfl⟩

/-- C6 counterexample: a non-2xx (here 500) response to the popup-open
health check surfaces no error message at all — the popup state, its
container included, is left exactly as it was; only the returned boolean is
false.  This contradicts the claim that any non-2xx response surfaces a
fixed user-visible error message. -/
theorem health_check_non2xx_counterexample :
    (checkServiceStatus (fun _ => FetchResult.http 500 (Except.error "boom"))
          initialPopupState).2 = initialPopupState ∧
      (checkServiceStatus (fun _ => FetchResult.http 500 (Except.error "boom"))
          initialPopupState).1 = false :=
  ⟨rfl, rfl⟩

set_option maxRecDepth 4000 in
/-- C6 amended: only a network failure of the health check surfaces the
fixed service-unavailable message; any HTTP response (2xx or not) leaves
the UI untouched and is logged only; the check's boolean outcome is
discarded by the popup-open handler, and a search's requests never depend
on the prior UI state, so the check gates nothing. -/
theorem health_check_error_surfacing
    (server : Server) (st st1 st2 : PopupState) (q : String) :
    (∀ msg, server testRequest = .netErr msg →
        (checkServiceStatus server st).2.container =
            Container.errorMsg
              "Memory service is not available. Please make sure it\x27s running on localhost:8000" ∧
          (checkServiceStatus server st).1 = false) ∧
      (∀ status body, server testRequest = .http status body →
        (checkServiceStatus server st).2 = st ∧
          (checkServiceStatus server st).1 = responseOk status) ∧
      onPopupOpen server st = (checkServiceStatus server st).2 ∧
      (searchMemories server q st1).2 = (searchMemories server q st2).2 := by
  refine ⟨?_, ?_, rfl, ?_⟩
  · intro msg hmsg
    unfold checkServiceStatus
    rw [hmsg]
    refine ⟨?_, rfl⟩
    show (showError _ st).container = _
    simp only [showError]
    congr 1
  · intro status body hmsg
    unfold checkServiceStatus
    rw [hmsg]
    exact ⟨rfl, rfl⟩
  · by_cases hq : jsTrim q = ""
    · simp [searchMemories, hq]
    · rw [searchMemories_requests_eq server q st1 hq,
        searchMemories_requests_eq server q st2 hq]

/-- Concrete service whose primary endpoint returns an empty result list
and whose fallback returns one hit. -/
def serverPrimaryEmpty : Server := fun r =>
  match r.endpoint with
  | .cascadingRetrieval => FetchResult.http 200 (.ok ⟨some []⟩)
  | .semanticSearch => FetchResult.http 200 (.ok ⟨some [⟨some "hi", none, 1⟩]⟩)
  | .test => FetchResult.http 200 (.ok ⟨none⟩)

/-- Concrete service whose primary endpoint returns one hit. -/
def serverPrimaryHit : Server := fun r =>
  match r.endpoint with
  | .cascadingRetrieval => FetchResult.http 200 (.ok ⟨some [⟨some "hit", none, 1⟩]⟩)
  | _ => FetchResult.netErr "unreachable"

/-- Concrete unreachable service: every fetch rejects. -/
def serverDown : Server := fun _ => FetchResult.netErr "Failed to fetch"

/-- C1 witness at a concrete service, query and state. -/
theorem fallback_called_once_on_empty_primary_witness :
    (searchMemories serverPrimaryEmpty "hello" initialPopupState).2 =
      [primaryRequest "hello", fallbackRequest "hello"] :=
  (fallback_called_once_on_empty_primary serverPrimaryEmpty "hello" initialPopupState
    200 ⟨some []⟩ (by decide) rfl rfl (Or.inr rfl)).1

/-- C2 witness at a concrete service, query and state. -/
theorem no_fallback_on_primary_hit_witness :
    (searchMemories serverPrimaryHit "hello" initialPopupState).2 = [primaryRequest "hello"] :=
  (no_fallback_on_primary_hit serverPrimaryHit "hello" initialPopupState 200
    ⟨some [⟨some "hit", none, 1⟩]⟩ ⟨some "hit", none, 1⟩ [] (by decide) rfl rfl rfl).1

/-- C3 witness at a concrete record list. -/
theorem rendered_text_is_escaped_witness :
    (renderCards 0 [⟨some "<script>", none, 1⟩])[0]? =
        some (renderCard 0 ⟨some "<script>", none, 1⟩) ∧
      escapeHtml "<script>" = "&lt;script&gt;" :=
  ⟨(rendered_text_is_escaped [⟨some "<script>", none, 1⟩] 0 ⟨some "<script>", none, 1⟩ rfl).1,
    (rendered_text_is_escaped [⟨some "<script>", none, 1⟩] 0 ⟨some "<script>", none, 1⟩ rfl).2.2.2.1⟩

/-- C4 witness at a concrete in-flight state. -/
theorem inflight_submission_ignored_witness :
    handleClick serverDown "query" (setLoading true initialPopupState) =
      (setLoading true initialPopupState, []) :=
  (inflight_submission_ignored serverDown "Enter" "query"
    (setLoading true initialPopupState) rfl).1

/-- C5 witness at a concrete unreachable service. -/
theorem search_always_returns_to_idle_witness :
    (searchMemories serverDown "hello" initialPopupState).1.isSearching = false ∧
      (searchMemories serverDown "hello" initialPopupState).1.container =
        Container.errorMsg ("Failed to search memories: " ++ escapeHtml "Failed to fetch") :=
  ⟨(search_always_returns_to_idle serverDown "hello" initialPopupState (by decide)).1,
    (search_always_returns_to_idle serverDown "hello" initialPopupState
      (by decide)).2.2.2.2 "Failed to fetch" rfl⟩

/-- C6 witness: network failure shows the fixed message; an HTTP response
leaves the state unchanged. -/
theorem health_check_error_surfacing_witness :
    (checkServiceStatus serverDown initialPopupState).2.container =
        Container.errorMsg
          "Memory service is not available. Please make sure it\x27s running on localhost:8000" ∧
      (checkServiceStatus (fun _ => FetchResult.http 204 (Except.ok ⟨none⟩))
          initialPopupState).2 = initialPopupState :=
  ⟨((health_check_error_surfacing serverDown initialPopupState initialPopupState
      initialPopupState "q").1 "Failed to fetch" rfl).1,
    ((health_check_error_surfacing (fun _ => FetchResult.http 204 (Except.ok ⟨none⟩))
      initialPopupState initialPopupState initialPopupState "q").2.1 204
      (Except.ok ⟨none⟩) rfl).1⟩

/-- C7 witness at a whitespace-only query. -/
theorem blank_query_never_dispatches_witness :
    handleClick serverDown "   " initialPopupState =
      ({ initialPopupState with
          container := Container.emptyState "Please enter a search query" }, []) :=
  (blank_query_never_dispatches serverDown "   " initialPopupState (by decide) rfl).1

/-- C8 witness at a concrete record. -/
theorem score_display_format_witness :
    (renderCard 0 (⟨some "hi", none, 1⟩ : Memory)).ordinal = 1 ∧
      jsToFixed1 ((953 / 1000 : ℚ) * 100) ++ "%" = "95.3%" :=
  ⟨(score_display_format [⟨some "hi", none, 1⟩] 0 ⟨some "hi", none, 1⟩ rfl).2.2.1,
    (score_display_format [⟨some "hi", none, 1⟩] 0 ⟨some "hi", none, 1⟩ rfl).2.2.2⟩

/-- C9 witness at concrete strings. -/
theorem escapeHtml_exactly_four_entities_witness :
    escapeHtml "hello" = "hello" ∧ escapeHtml "&" = "&amp;" :=
  ⟨(escapeHtml_exactly_four_entities "hello" "msg" initialPopupState (by decide)).1,
    (escapeHtml_exactly_four_entities "hello" "msg" initialPopupState (by decide)).2.1⟩
